import Mathlib

/-!
Verification development for the turtle-soup chat-game plugin
(src/plugin.py).  The plugin is a command dispatcher over a per-group
mutable game state plus calls to an external LLM HTTP endpoint.  We give a
shallow embedding of:

* the command regex
  `^/hgt(?:\s+(?P<action>(?:提示|问题|整理线索|猜谜|退出|帮助|揭秘|汤面)))(?:\s+(?P<rest>.+))?$`
  as an executable parsing function;
* the per-group session record stored in the global `game_states` map;
* every handler (`_handle_question`, `_handle_hint`, `_handle_clues`,
  `_handle_guess`, `_handle_exit`, `_start_new_game`) and the dispatcher
  `execute`.  The external LLM collaborator is modelled as an oracle
  `llm : Nat → String` giving the return value of each successive
  `_call_llm_api` invocation (that return value is universally
  quantified, so every possible collaborator behaviour is covered); each
  result additionally records how many collaborator calls were made;
* `_call_llm_api` itself over an abstract HTTP outcome (exception /
  status + optional parsed JSON body).
-/

namespace TurtleSoup

/-- ASCII whitespace: the characters matched by the regex class `\s` and
stripped by Python `str.strip()` that can occur in this development
(Python additionally covers some Unicode space characters; none are used
by any claim). -/
def isWs (c : Char) : Bool :=
  c == ' ' || c == '\t' || c == '\n' || c == '\x0b' || c == '\x0c' || c == '\r'

/-- Python `str.strip()`: drop whitespace from both ends. -/
def pyStrip (s : String) : String :=
  String.mk (((s.data.dropWhile isWs).reverse.dropWhile isWs).reverse)

/-- Python `str.lower()` on ASCII letters (the strings compared after
lowering in the source are Chinese and are unaffected by lowering). -/
def pyLower (s : String) : String :=
  String.mk (s.data.map Char.toLower)

/-- The action keywords of `command_pattern`, in alternation order:
`提示|问题|整理线索|猜谜|退出|帮助|揭秘|汤面`.  Their first characters are
pairwise distinct, so at most one alternative can match at a given
position. -/
def actionKeywords : List String :=
  ["提示", "问题", "整理线索", "猜谜", "退出", "帮助", "揭秘", "汤面"]

/-- `startsWith p t` : the character list `p` begins the list `t`. -/
def startsWith : List Char → List Char → Bool
  | [], _ => true
  | _ :: _, [] => false
  | p :: ps, c :: cs => p == c && startsWith ps cs

/-- Match the action alternation against the front of `t`, returning the
keyword and the remaining characters. -/
def findAction (t : List Char) : Option (String × List Char) :=
  (actionKeywords.find? (fun k => startsWith k.data t)).map
    (fun k => (k, t.drop k.data.length))

/-- The optional trailing group `(?:\s+(?P<rest>.+))?$` of
`command_pattern`, given the characters after the action keyword (the
empty case is handled by the caller).  A match needs a split into a
non-empty whitespace run followed by a non-empty run of non-newline
characters reaching the end; the greedy engine captures the text after
the maximal whitespace run, backtracking inside an all-whitespace tail to
a single final character. -/
def parseRest (t : List Char) : Option (List Char) :=
  let w := t.takeWhile isWs
  let r := t.dropWhile isWs
  if w.isEmpty then none
  else if r.isEmpty then
    match t.getLast? with
    | some c => if 2 ≤ t.length ∧ c ≠ '\n' then some [c] else none
    | none => none
  else if r.contains '\n' then none
  else some r

/-- `command_pattern` on a message with no trailing newline: the literal
`/hgt`, a non-empty whitespace run, an action keyword, then optionally
whitespace and a rest argument. -/
def parseCore (t : List Char) : Option (String × Option String) :=
  if startsWith "/hgt".data t then
    if ((t.drop 4).takeWhile isWs).isEmpty then none
    else
      match findAction ((t.drop 4).dropWhile isWs) with
      | none => none
      | some (a, t2) =>
        if t2.isEmpty then some (a, none)
        else
          match parseRest t2 with
          | some r => some (a, some (String.mk r))
          | none => none
  else none

/-- `command_pattern` applied to a whole message, yielding the captured
`action` and `rest` groups on a match.  Python's `$` anchor also matches
just before a final newline, and no element of the pattern can consume
that newline, so one trailing newline is removed before anchoring at the
end. -/
def parseCommand (msg : String) : Option (String × Option String) :=
  parseCore (if msg.data.getLast? == some '\n' then msg.data.dropLast else msg.data)

/-- One entry of a session's `guess_history` list.  `_handle_question`
appends a dict `{"type": "question", "content": q}`; `_handle_guess`
appends the bare guess string. -/
inductive HistEntry where
  | question (content : String)
  | rawGuess (s : String)
deriving DecidableEq, Repr

/-- One per-group value of the global `game_states` map.  The Python value
is a dict; every read in the source uses `.get` with a default (or is
guarded so the key exists), and those defaults coincide with the fields of
`freshSession` below, so a total record is observationally faithful. -/
structure Session where
  current_question : String
  current_answer : String
  hints_used : Nat
  game_active : Bool
  guess_history : List HistEntry
  game_over : Bool
deriving DecidableEq, Repr

/-- The state seen for a group with no prior entry: `execute` inserts an
empty dict `{}`, whose `.get` defaults are exactly these fields. -/
def freshSession : Session :=
  ⟨"", "", 0, false, [], false⟩

/-- The observable outcome of one handler run: the stored session
afterwards, the texts sent with `send_text`, the returned
`(bool, reason, bool)` tuple's first two components, and the number of
`_call_llm_api` invocations made. -/
structure CmdResult where
  session : Session
  replies : List String
  ok : Bool
  note : String
  llm_calls : Nat
deriving DecidableEq, Repr

/-- `_start_new_game`: rejected while a game is in progress
(`game_active` and not `game_over`); otherwise two collaborator calls
produce the question and the answer, both stripped, and a fully fresh
session with `game_active := true` is stored. -/
def _start_new_game (s : Session) (llmQ llmA : String) : CmdResult :=
  if s.game_active ∧ ¬ s.game_over then
    ⟨s, ["⚠️ 当前已经有题目在进行中，请先使用 /hgt 揭秘 或 /hgt 退出 再开始新题。"],
     false, "已有进行中的游戏", 0⟩
  else
    ⟨⟨pyStrip llmQ, pyStrip llmA, 0, true, [], false⟩,
     ["🤔 海龟汤题目:\n" ++ pyStrip llmQ ++
      "\n💡 提示次数: 0/3\n💡 使用 /hgt 问题 <问题> 提问，/hgt 提示 获取提示，/hgt 猜谜 <答案> 猜测汤底"],
     true, "新题目生成完成", 2⟩

/-- `_handle_question`: with no active game it falls through to
`_start_new_game`; otherwise the question is appended to the history, one
collaborator call is made, and an empty stripped response is replaced by
the fallback text `❌ LLM未返回回答`. -/
def _handle_question (s : Session) (question : String) (llm : Nat → String) : CmdResult :=
  if ¬ s.game_active then _start_new_game s (llm 0) (llm 1)
  else
    ⟨{ s with guess_history := s.guess_history ++ [HistEntry.question question] },
     ["❓ 你问: " ++ question ++ "\n💡 回答: " ++
      (if pyStrip (llm 0) = "" then "❌ LLM未返回回答" else pyStrip (llm 0))],
     true, "问题回答完成", 1⟩

/-- `_handle_hint`: rejected with no active game, rejected once
`hints_used` reaches 3; otherwise one collaborator call, `hints_used`
incremented, and the (possibly empty) stripped hint embedded in the
reply. -/
def _handle_hint (s : Session) (hint : String) : CmdResult :=
  if ¬ s.game_active then ⟨s, ["❌ 当前没有进行中的游戏"], false, "无游戏", 0⟩
  else if 3 ≤ s.hints_used then ⟨s, ["💡 提示已用完"], false, "提示用尽", 0⟩
  else
    ⟨{ s with hints_used := s.hints_used + 1 },
     ["💡 提示 (" ++ toString (s.hints_used + 1) ++ "/3): " ++ pyStrip hint],
     true, "提示完成", 1⟩

/-- The contents joined from `guess_history` by `_handle_clues`:
`item["content"]` succeeds on the dict entries appended by
`_handle_question` and raises `TypeError` on the bare strings appended by
`_handle_guess`. -/
def histContents (h : List HistEntry) : Option (List String) :=
  h.mapM (fun e => match e with
    | HistEntry.question c => some c
    | HistEntry.rawGuess _ => none)

/-- `_handle_clues`: rejected with no active game; raises (result `none`)
when the history holds a bare guess string; otherwise one collaborator
call whose stripped output is embedded in the reply. -/
def _handle_clues (s : Session) (clues : String) : Option CmdResult :=
  if ¬ s.game_active then some ⟨s, ["❌ 当前没有进行中的游戏"], false, "无游戏", 0⟩
  else
    match histContents s.guess_history with
    | none => none
    | some _ => some ⟨s, ["📝 线索整理:\n" ++ pyStrip clues], true, "线索整理完成", 1⟩

/-- `_handle_guess`: rejected with no active game or once `game_over`;
otherwise one collaborator call, the guess appended to the history, and a
three-way comparison of the stripped and lowered response against `是`
and `不是`, every other value falling to the unrelated branch.  The win
branch sets `game_over := true` and leaves `game_active` untouched. -/
def _handle_guess (s : Session) (guess resp : String) : CmdResult :=
  if ¬ s.game_active then ⟨s, ["❌ 当前没有进行中的游戏"], false, "无游戏", 0⟩
  else if s.game_over then ⟨s, ["❌ 游戏已结束，请开始新游戏"], false, "游戏已结束", 0⟩
  else if pyLower (pyStrip resp) = "是" then
    ⟨{ s with guess_history := s.guess_history ++ [HistEntry.rawGuess guess],
              game_over := true },
     ["🎉 猜对了！答案: " ++ s.current_answer], true, "猜谜完成", 1⟩
  else if pyLower (pyStrip resp) = "不是" then
    ⟨{ s with guess_history := s.guess_history ++ [HistEntry.rawGuess guess] },
     ["❌ 猜错了！提示次数: " ++ toString s.hints_used ++ "/3"], true, "猜谜完成", 1⟩
  else
    ⟨{ s with guess_history := s.guess_history ++ [HistEntry.rawGuess guess] },
     ["❓ 你的回答与题目无关"], true, "猜谜完成", 1⟩

/-- `_handle_exit`: unconditionally store the all-empty session. -/
def _handle_exit (_s : Session) : CmdResult :=
  ⟨⟨"", "", 0, false, [], false⟩, ["🛑 游戏已退出"], true, "退出游戏", 0⟩

/-- The static `command_help` text. -/
def command_help : String :=
  "海龟汤游戏:\n/hgt 问题(生成题目)\n/hgt 问题 这里加上你的问题 (向bot提问)\n" ++
  "/hgt 提示 (获取提示)\n/hgt 整理线索 (整理线索)\n/hgt 汤面 (查看当前题目)\n" ++
  "/hgt 猜谜 <答案> (猜测汤底)\n/hgt 退出 (结束游戏)\n" ++
  "/hgt 揭秘 (直接查看答案并结束游戏)\n/hgt 帮助 (查看帮助)"

/-- `rest_input`: the stripped `rest` capture, the empty string when the
group is absent. -/
def restInput (rest : Option String) : String :=
  pyStrip (rest.getD "")

/-- The dispatch chain of `execute`, after the configuration and
chat-context guards (which reject before any state is touched and are
outside every claim).  `s` is the stored session for the group (an empty
dict, i.e. `freshSession`, is inserted first for an unknown group),
`action` and `rest` are the regex captures, and `llm` gives the value of
each successive collaborator call.  The result is `none` exactly when the
handler raises (`_handle_clues` on a history holding a bare guess). -/
def execute (s : Session) (action : String) (rest : Option String)
    (llm : Nat → String) : Option CmdResult :=
  if action = "问题" ∧ restInput rest ≠ "" then
    some (_handle_question s (restInput rest) llm)
  else if action = "提示" then
    some (_handle_hint s (llm 0))
  else if action = "整理线索" then
    _handle_clues s (llm 0)
  else if action = "汤面" then
    if ¬ s.game_active then some ⟨s, ["❌ 当前没有进行中的游戏"], false, "无游戏", 0⟩
    else some ⟨s, ["🍲 当前海龟汤题目:\n" ++ s.current_question], true, "查看汤面", 0⟩
  else if action = "猜谜" ∧ restInput rest ≠ "" then
    some (_handle_guess s (restInput rest) (llm 0))
  else if action = "揭秘" then
    if ¬ s.game_active then
      some ⟨s, ["❌ 当前没有正在进行的游戏。请先使用 /hgt 生成题目。"], false, "无游戏", 0⟩
    else
      some ⟨{ s with game_active := false, game_over := true },
            ["🔓 当前海龟汤答案是:\n" ++ s.current_answer ++ "\n游戏结束。"],
            true, "已揭秘", 0⟩
  else if action = "退出" then
    some (_handle_exit s)
  else if action = "帮助" then
    some ⟨s, [command_help], true, "显示帮助", 0⟩
  else
    some (_start_new_game s (llm 0) (llm 1))

/-- A parsed JSON value, as produced by `resp.json()`. -/
inductive JValue where
  | null
  | bool (b : Bool)
  | num (n : Int)
  | str (s : String)
  | arr (xs : List JValue)
  | obj (fields : List (String × JValue))

/-- Python `dict.get(k, default)`: the default only when the key is absent;
an `AttributeError` (modelled as `Except.error`) when the receiver is not a
dict. -/
def jGet (v : JValue) (k : String) (dflt : JValue) : Except Unit JValue :=
  match v with
  | JValue.obj fields => Except.ok ((fields.lookup k).getD dflt)
  | _ => Except.error ()

/-- Python `x[0]`: the first element of a list; every other receiver ends
in an exception on this code path (an `IndexError`, `KeyError` or
`TypeError` directly, or — when indexing a non-empty string — an
`AttributeError` at the `.get` that follows). -/
def jIndex0 (v : JValue) : Except Unit JValue :=
  match v with
  | JValue.arr (x :: _) => Except.ok x
  | _ => Except.error ()

/-- The final `.strip()` of the extraction chain: succeeds on a string
`content` and raises (as Python `None.strip()` or `int.strip()` would) on
anything else. -/
def contentOf (content : JValue) : Except Unit String :=
  match content with
  | JValue.str s => Except.ok (pyStrip s)
  | _ => Except.error ()

/-- `data.get("choices",[{}])[0].get("message",{}).get("content","").strip()`
inside the `try` block: any raised step is an `Except.error`. -/
def extractContent (data : JValue) : Except Unit String :=
  (jGet data "choices" (JValue.arr [JValue.obj []])).bind fun choices =>
  (jIndex0 choices).bind fun first =>
  (jGet first "message" (JValue.obj [])).bind fun message =>
  (jGet message "content" (JValue.str "")).bind fun content =>
  contentOf content

/-- The abstract outcome of the HTTP POST made by `_call_llm_api`:
either the request raised an exception, or a response arrived with a
status code and a body (`none` when `resp.json()` fails to parse). -/
inductive ApiOutcome where
  | exn
  | response (status : Nat) (body : Option JValue)

/-- `aiohttp.ClientTimeout(total=30)`: the fixed per-call timeout in
seconds. -/
def llm_timeout_seconds : Nat := 30

/-- `_call_llm_api`: the single HTTP call, returning the extracted,
stripped message content on a well-formed 200 response and the empty
string in every other situation; the surrounding `try`/`except` swallows
every exception. -/
def _call_llm_api : ApiOutcome → String
  | ApiOutcome.exn => ""
  | ApiOutcome.response status body =>
    if status = 200 then
      match body with
      | none => ""
      | some data =>
        match extractContent data with
        | Except.ok s => s
        | Except.error _ => ""
    else ""

/-- The sessions a group's entry in `game_states` can ever hold: the empty
initial entry, and everything one dispatched command produces from a
reachable session, for every possible collaborator behaviour. -/
inductive Reachable : Session → Prop where
  | fresh : Reachable freshSession
  | step (s : Session) (a : String) (rest : Option String) (llm : Nat → String)
      (r : CmdResult) (hs : Reachable s) (he : execute s a rest llm = some r) :
      Reachable r.session

/-- Reachability as in `Reachable`, but restricted to collaborator
behaviours whose first two responses are non-blank after stripping (the
two puzzle-generation calls of `_start_new_game` are calls 0 and 1). -/
inductive ReachableNE : Session → Prop where
  | fresh : ReachableNE freshSession
  | step (s : Session) (a : String) (rest : Option String) (llm : Nat → String)
      (r : CmdResult) (hs : ReachableNE s)
      (hq : pyStrip (llm 0) ≠ "") (ha : pyStrip (llm 1) ≠ "")
      (he : execute s a rest llm = some r) :
      ReachableNE r.session

/-- `t` occurs as a contiguous substring of `s`. -/
def ContainsSubstr (s t : String) : Prop :=
  ∃ p q, s = p ++ t ++ q

lemma mem_of_containsSubstr {s t : String} (h : ContainsSubstr s t)
    {c : Char} (hc : c ∈ t.data) : c ∈ s.data := by
  obtain ⟨p, q, rfl⟩ := h
  rw [String.data_append, String.data_append]
  exact List.mem_append.mpr (Or.inl (List.mem_append.mpr (Or.inr hc)))

lemma start_shape (s : Session) (q a : String) :
    (_start_new_game s q a).session = s ∨
    (_start_new_game s q a).session = ⟨pyStrip q, pyStrip a, 0, true, [], false⟩ := by
  unfold _start_new_game
  by_cases h : (s.game_active = true) ∧ ¬ (s.game_over = true)
  · rw [if_pos h]
    exact Or.inl rfl
  · rw [if_neg h]
    exact Or.inr rfl

lemma question_shape (s : Session) (q : String) (llm : Nat → String) :
    (_handle_question s q llm).session = s ∨
    (_handle_question s q llm).session = ⟨pyStrip (llm 0), pyStrip (llm 1), 0, true, [], false⟩ ∨
    ∃ hist, (_handle_question s q llm).session = { s with guess_history := hist } := by
  unfold _handle_question
  by_cases h1 : s.game_active = true
  · rw [if_neg (not_not_intro h1)]
    exact Or.inr (Or.inr ⟨_, rfl⟩)
  · rw [if_pos h1]
    rcases start_shape s (llm 0) (llm 1) with h | h
    · exact Or.inl h
    · exact Or.inr (Or.inl h)

lemma hint_shape (s : Session) (hint : String) :
    (_handle_hint s hint).session = s ∨
    (s.hints_used < 3 ∧
      (_handle_hint s hint).session = { s with hints_used := s.hints_used + 1 }) := by
  unfold _handle_hint
  by_cases h1 : s.game_active = true
  · rw [if_neg (not_not_intro h1)]
    by_cases h2 : 3 ≤ s.hints_used
    · rw [if_pos h2]
      exact Or.inl rfl
    · rw [if_neg h2]
      exact Or.inr ⟨by omega, rfl⟩
  · rw [if_pos h1]
    exact Or.inl rfl

lemma clues_shape {s : Session} {c : String} {r : CmdResult}
    (h : _handle_clues s c = some r) : r.session = s := by
  unfold _handle_clues at h
  by_cases h1 : s.game_active = true
  · rw [if_neg (not_not_intro h1)] at h
    cases hm : histContents s.guess_history with
    | none =>
      rw [hm] at h
      exact absurd h (by simp)
    | some cl =>
      rw [hm] at h
      obtain rfl := Option.some.inj h
      rfl
  · rw [if_pos h1] at h
    obtain rfl := Option.some.inj h
    rfl

lemma guess_shape (s : Session) (g rsp : String) :
    (_handle_guess s g rsp).session = s ∨
    (∃ hist, (_handle_guess s g rsp).session = { s with guess_history := hist }) ∨
    ∃ hist, (_handle_guess s g rsp).session =
      { s with guess_history := hist, game_over := true } := by
  unfold _handle_guess
  by_cases h1 : s.game_active = true
  · rw [if_neg (not_not_intro h1)]
    by_cases h2 : s.game_over = true
    · rw [if_pos h2]
      exact Or.inl rfl
    · rw [if_neg h2]
      by_cases h3 : pyLower (pyStrip rsp) = "是"
      · rw [if_pos h3]
        exact Or.inr (Or.inr ⟨_, rfl⟩)
      · rw [if_neg h3]
        by_cases h4 : pyLower (pyStrip rsp) = "不是"
        · rw [if_pos h4]
          exact Or.inr (Or.inl ⟨_, rfl⟩)
        · rw [if_neg h4]
          exact Or.inr (Or.inl ⟨_, rfl⟩)
  · rw [if_pos h1]
    exact Or.inl rfl

/-- Case analysis of the stored session after one dispatched command:
unchanged, fully reset, freshly generated, history-only update, hint
increment (guarded by the cap), win flag set alongside a history update,
or the reveal flags. -/
lemma execute_session_shape (s : Session) (a : String) (rest : Option String)
    (llm : Nat → String) (r : CmdResult)
    (h : execute s a rest llm = some r) :
    r.session = s ∨
    r.session = freshSession ∨
    r.session = ⟨pyStrip (llm 0), pyStrip (llm 1), 0, true, [], false⟩ ∨
    (∃ hist, r.session = { s with guess_history := hist }) ∨
    (s.hints_used < 3 ∧ r.session = { s with hints_used := s.hints_used + 1 }) ∨
    (∃ hist, r.session = { s with guess_history := hist, game_over := true }) ∨
    r.session = { s with game_active := false, game_over := true } := by
  unfold execute at h
  by_cases c1 : a = "问题" ∧ restInput rest ≠ ""
  · rw [if_pos c1] at h
    obtain rfl := Option.some.inj h
    rcases question_shape s (restInput rest) llm with h' | h' | ⟨hist, h'⟩
    · exact Or.inl h'
    · exact Or.inr (Or.inr (Or.inl h'))
    · exact Or.inr (Or.inr (Or.inr (Or.inl ⟨hist, h'⟩)))
  rw [if_neg c1] at h
  by_cases c2 : a = "提示"
  · rw [if_pos c2] at h
    obtain rfl := Option.some.inj h
    rcases hint_shape s (llm 0) with h' | ⟨hlt, h'⟩
    · exact Or.inl h'
    · exact Or.inr (Or.inr (Or.inr (Or.inr (Or.inl ⟨hlt, h'⟩))))
  rw [if_neg c2] at h
  by_cases c3 : a = "整理线索"
  · rw [if_pos c3] at h
    exact Or.inl (clues_shape h)
  rw [if_neg c3] at h
  by_cases c4 : a = "汤面"
  · rw [if_pos c4] at h
    by_cases hA : s.game_active = true
    · rw [if_neg (not_not_intro hA)] at h
      obtain rfl := Option.some.inj h
      exact Or.inl rfl
    · rw [if_pos hA] at h
      obtain rfl := Option.some.inj h
      exact Or.inl rfl
  rw [if_neg c4] at h
  by_cases c5 : a = "猜谜" ∧ restInput rest ≠ ""
  · rw [if_pos c5] at h
    obtain rfl := Option.some.inj h
    rcases guess_shape s (restInput rest) (llm 0) with h' | ⟨hist, h'⟩ | ⟨hist, h'⟩
    · exact Or.inl h'
    · exact Or.inr (Or.inr (Or.inr (Or.inl ⟨hist, h'⟩)))
    · exact Or.inr (Or.inr (Or.inr (Or.inr (Or.inr (Or.inl ⟨hist, h'⟩)))))
  rw [if_neg c5] at h
  by_cases c6 : a = "揭秘"
  · rw [if_pos c6] at h
    by_cases hA : s.game_active = true
    · rw [if_neg (not_not_intro hA)] at h
      obtain rfl := Option.some.inj h
      exact Or.inr (Or.inr (Or.inr (Or.inr (Or.inr (Or.inr rfl)))))
    · rw [if_pos hA] at h
      obtain rfl := Option.some.inj h
      exact Or.inl rfl
  rw [if_neg c6] at h
  by_cases c7 : a = "退出"
  · rw [if_pos c7] at h
    obtain rfl := Option.some.inj h
    exact Or.inr (Or.inl rfl)
  rw [if_neg c7] at h
  by_cases c8 : a = "帮助"
  · rw [if_pos c8] at h
    obtain rfl := Option.some.inj h
    exact Or.inl rfl
  rw [if_neg c8] at h
  obtain rfl := Option.some.inj h
  rcases start_shape s (llm 0) (llm 1) with h' | h'
  · exact Or.inl h'
  · exact Or.inr (Or.inr (Or.inl h'))

lemma hints_le_step {s : Session} {a : String} {rest : Option String}
    {llm : Nat → String} {r : CmdResult}
    (h3 : s.hints_used ≤ 3) (h : execute s a rest llm = some r) :
    r.session.hints_used ≤ 3 := by
  rcases execute_session_shape s a rest llm r h with
    h' | h' | h' | ⟨hist, h'⟩ | ⟨hlt, h'⟩ | ⟨hist, h'⟩ | h' <;> rw [h']
  · exact h3
  · exact Nat.zero_le 3
  · exact Nat.zero_le 3
  · exact h3
  · show s.hints_used + 1 ≤ 3
    omega
  · exact h3
  · exact h3

lemma inv_step {s : Session} {a : String} {rest : Option String}
    {llm : Nat → String} {r : CmdResult}
    (hq : pyStrip (llm 0) ≠ "") (ha : pyStrip (llm 1) ≠ "")
    (hI : s.game_active = true → s.current_question ≠ "" ∧ s.current_answer ≠ "")
    (h : execute s a rest llm = some r) :
    r.session.game_active = true →
      r.session.current_question ≠ "" ∧ r.session.current_answer ≠ "" := by
  rcases execute_session_shape s a rest llm r h with
    h' | h' | h' | ⟨hist, h'⟩ | ⟨hlt, h'⟩ | ⟨hist, h'⟩ | h' <;> rw [h']
  · exact hI
  · intro hx
    exact absurd hx (by decide)
  · intro _
    exact ⟨hq, ha⟩
  · exact hI
  · exact hI
  · exact hI
  · intro hx
    simp at hx

lemma guess_noop_of_over {s : Session} (hov : s.game_over = true) (g r : String) :
    (_handle_guess s g r).ok = false ∧ (_handle_guess s g r).session = s := by
  unfold _handle_guess
  by_cases h1 : s.game_active = true
  · rw [if_neg (not_not_intro h1), if_pos hov]
    exact ⟨rfl, rfl⟩
  · rw [if_pos h1]
    exact ⟨rfl, rfl⟩

/-- C1 counterexample: the claim asserts the non-emptiness invariant is
established by starting a new game even when the collaborator returns the
empty string; in fact `_start_new_game` with empty collaborator outputs
stores a session with `game_active = true` and empty `current_question`
and `current_answer`. -/
theorem C1_counterexample :
    (_start_new_game freshSession "" "").session.game_active = true ∧
    (_start_new_game freshSession "" "").session.current_question = "" ∧
    (_start_new_game freshSession "" "").session.current_answer = "" := by
  decide

/-- C1 (amended): in every session reachable under collaborator behaviours
whose puzzle-generation outputs are non-blank after stripping, an active
game has non-empty `current_question` and `current_answer`; with a blank
collaborator output the start operation itself violates the invariant
(see the counterexample). -/
theorem C1_invariant (s : Session) (h : ReachableNE s) :
    s.game_active = true → s.current_question ≠ "" ∧ s.current_answer ≠ "" := by
  induction h with
  | fresh =>
    intro hact
    exact absurd hact (by decide)
  | step s a rest llm r hs hq ha he ih =>
    exact inv_step hq ha ih he

/-- C1 witness: a concrete reachable active session with non-blank
generation outputs satisfies the invariant. -/
theorem C1_witness :
    (_start_new_game freshSession "Q" "A").session.current_question ≠ "" ∧
    (_start_new_game freshSession "Q" "A").session.current_answer ≠ "" := by
  have hr : ReachableNE (_start_new_game freshSession "Q" "A").session :=
    ReachableNE.step freshSession "开始" none (fun i => if i = 0 then "Q" else "A")
      (_start_new_game freshSession "Q" "A") ReachableNE.fresh
      (by decide) (by decide) (by rfl)
  exact C1_invariant _ hr (by decide)

/-- C2 (confirmed): for an in-progress session, the guess handler performs
a strict three-way classification of the collaborator output after the
source's normalization (`.strip().lower()`): exactly `是` selects the win
branch whose reply contains the hidden answer; exactly `不是` selects the
incorrect branch whose reply contains the `hints_used` count; every other
normalized output selects the catch-all unrelated branch; in the latter
two branches `game_active` and `game_over` are unchanged. -/
theorem C2_classification (s : Session) (guess resp : String)
    (hact : s.game_active = true) (hover : s.game_over = false) :
    (pyLower (pyStrip resp) = "是" →
      (_handle_guess s guess resp).session.game_over = true ∧
      ∃ p q, (_handle_guess s guess resp).replies = [p ++ s.current_answer ++ q]) ∧
    (pyLower (pyStrip resp) = "不是" →
      (_handle_guess s guess resp).replies =
        ["❌ 猜错了！提示次数: " ++ toString s.hints_used ++ "/3"] ∧
      (_handle_guess s guess resp).session.game_active = s.game_active ∧
      (_handle_guess s guess resp).session.game_over = s.game_over) ∧
    (pyLower (pyStrip resp) ≠ "是" → pyLower (pyStrip resp) ≠ "不是" →
      (_handle_guess s guess resp).replies = ["❓ 你的回答与题目无关"] ∧
      (_handle_guess s guess resp).session.game_active = s.game_active ∧
      (_handle_guess s guess resp).session.game_over = s.game_over) := by
  have hov : ¬ (s.game_over = true) := by simp [hover]
  refine ⟨?_, ?_, ?_⟩
  · intro h3
    unfold _handle_guess
    rw [if_neg (not_not_intro hact), if_neg hov, if_pos h3]
    exact ⟨rfl, "🎉 猜对了！答案: ", "", by rw [String.append_empty]⟩
  · intro h4
    have h3 : ¬ (pyLower (pyStrip resp) = "是") := by
      rw [h4]
      decide
    unfold _handle_guess
    rw [if_neg (not_not_intro hact), if_neg hov, if_neg h3, if_pos h4]
    exact ⟨rfl, rfl, rfl⟩
  · intro h3 h4
    unfold _handle_guess
    rw [if_neg (not_not_intro hact), if_neg hov, if_neg h3, if_neg h4]
    exact ⟨rfl, rfl, rfl⟩

/-- C2 witness: the three branches at a concrete in-progress session. -/
theorem C2_witness :
    (_handle_guess ⟨"Q", "A", 1, true, [], false⟩ "g" "是").session.game_over = true ∧
    (_handle_guess ⟨"Q", "A", 1, true, [], false⟩ "g" "不是").replies =
      ["❌ 猜错了！提示次数: " ++ toString (1 : Nat) ++ "/3"] ∧
    (_handle_guess ⟨"Q", "A", 1, true, [], false⟩ "g" "maybe").replies =
      ["❓ 你的回答与题目无关"] := by
  exact ⟨((C2_classification ⟨"Q", "A", 1, true, [], false⟩ "g" "是" rfl rfl).1 (by decide)).1,
         ((C2_classification ⟨"Q", "A", 1, true, [], false⟩ "g" "不是" rfl rfl).2.1 (by decide)).1,
         ((C2_classification ⟨"Q", "A", 1, true, [], false⟩ "g" "maybe" rfl rfl).2.2
           (by decide) (by decide)).1⟩

/-- C3 counterexample: the claim asserts that a correct guess leaves
`active = false` and `over = true`; at a concrete in-progress session the
win branch leaves `game_active = true` (only `game_over` is set). -/
theorem C3_counterexample :
    ¬ ((_handle_guess ⟨"Q1", "A1", 0, true, [], false⟩ "g" "是").session.game_active = false ∧
       (_handle_guess ⟨"Q1", "A1", 0, true, [], false⟩ "g" "是").session.game_over = true) := by
  decide

/-- C3 (amended): when an in-progress session's guess is classified `是`,
the stored state afterwards has `game_over = true` while `game_active`
remains `true` (the win branch sets only `game_over`); the game is still
treated as ended: any further guess is rejected without a state change. -/
theorem C3_finished (s : Session) (guess resp : String)
    (hact : s.game_active = true) (hover : s.game_over = false)
    (hresp : pyLower (pyStrip resp) = "是") :
    (_handle_guess s guess resp).session.game_over = true ∧
    (_handle_guess s guess resp).session.game_active = true ∧
    ∀ g2 r2, (_handle_guess (_handle_guess s guess resp).session g2 r2).ok = false ∧
      (_handle_guess (_handle_guess s guess resp).session g2 r2).session =
        (_handle_guess s guess resp).session := by
  have hov : ¬ (s.game_over = true) := by simp [hover]
  have hsession : (_handle_guess s guess resp).session =
      { s with guess_history := s.guess_history ++ [HistEntry.rawGuess guess],
               game_over := true } := by
    unfold _handle_guess
    rw [if_neg (not_not_intro hact), if_neg hov, if_pos hresp]
  refine ⟨by rw [hsession], ?_, ?_⟩
  · rw [hsession]
    exact hact
  · intro g2 r2
    rw [hsession]
    exact guess_noop_of_over rfl g2 r2

/-- C3 witness: the amended behaviour at a concrete in-progress session. -/
theorem C3_witness :
    (_handle_guess ⟨"Q1", "A1", 0, true, [], false⟩ "g" "是").session.game_over = true ∧
    (_handle_guess ⟨"Q1", "A1", 0, true, [], false⟩ "g" "是").session.game_active = true := by
  have h := C3_finished ⟨"Q1", "A1", 0, true, [], false⟩ "g" "是" rfl rfl (by decide)
  exact ⟨h.1, h.2.1⟩

/-- C4 (confirmed): `hints_used` never exceeds 3 in any reachable session;
a successful hint (active game, fewer than 3 used) increments it by
exactly one; a hint request with 3 or more used leaves the whole session
unchanged and fails. -/
theorem C4_hint_cap :
    (∀ s : Session, Reachable s → s.hints_used ≤ 3) ∧
    (∀ (s : Session) (hint : String), s.game_active = true → s.hints_used < 3 →
      (_handle_hint s hint).session.hints_used = s.hints_used + 1) ∧
    (∀ (s : Session) (hint : String), 3 ≤ s.hints_used →
      (_handle_hint s hint).session = s ∧ (_handle_hint s hint).ok = false) := by
  refine ⟨?_, ?_, ?_⟩
  · intro s h
    induction h with
    | fresh => exact Nat.zero_le 3
    | step s a rest llm r hs he ih => exact hints_le_step ih he
  · intro s hint hact hlt
    unfold _handle_hint
    rw [if_neg (not_not_intro hact), if_neg (by omega)]
  · intro s hint h3
    unfold _handle_hint
    by_cases h1 : s.game_active = true
    · rw [if_neg (not_not_intro h1), if_pos h3]
      exact ⟨rfl, rfl⟩
    · rw [if_pos h1]
      exact ⟨rfl, rfl⟩

/-- C4 witness: the cap at the fresh session, an increment from 2 to 3,
and the rejected fourth hint at 3. -/
theorem C4_witness :
    freshSession.hints_used ≤ 3 ∧
    (_handle_hint ⟨"Q", "A", 2, true, [], false⟩ "h").session.hints_used = 3 ∧
    ((_handle_hint ⟨"Q", "A", 3, true, [], false⟩ "h").session =
        ⟨"Q", "A", 3, true, [], false⟩ ∧
      (_handle_hint ⟨"Q", "A", 3, true, [], false⟩ "h").ok = false) := by
  exact ⟨C4_hint_cap.1 freshSession Reachable.fresh,
         C4_hint_cap.2.1 ⟨"Q", "A", 2, true, [], false⟩ "h" rfl (by decide),
         C4_hint_cap.2.2 ⟨"Q", "A", 3, true, [], false⟩ "h" (by decide)⟩

lemma findAction_mem {t : List Char} {a : String} {t2 : List Char}
    (h : findAction t = some (a, t2)) : a ∈ actionKeywords := by
  unfold findAction at h
  cases hf : actionKeywords.find? (fun k => startsWith k.data t) with
  | none =>
    rw [hf] at h
    exact absurd h (by simp)
  | some k =>
    rw [hf] at h
    have h' := Option.some.inj h
    injection h' with h1 h2
    subst h1
    exact List.mem_of_find?_eq_some hf

lemma parseCore_mem {t : List Char} {a : String} {rest : Option String}
    (h : parseCore t = some (a, rest)) : a ∈ actionKeywords := by
  unfold parseCore at h
  by_cases h0 : startsWith "/hgt".data t = true
  · rw [if_pos h0] at h
    by_cases h1 : ((t.drop 4).takeWhile isWs).isEmpty = true
    · rw [if_pos h1] at h
      exact absurd h (by simp)
    · rw [if_neg h1] at h
      split at h
      · exact absurd h (by simp)
      · rename_i a' t2 hf
        have ha' : a' ∈ actionKeywords := findAction_mem hf
        split at h
        · have h' := Option.some.inj h
          injection h' with h3 h4
          subst h3
          exact ha'
        · split at h
          · have h' := Option.some.inj h
            injection h' with h3 h4
            subst h3
            exact ha'
          · exact absurd h (by simp)
  · rw [if_neg h0] at h
    exact absurd h (by simp)

/-- C5 counterexample: the claim asserts that a message matching the
`/hgt` command prefix but carrying no recognized action keyword is
handled by falling through to start-new-game; in fact `command_pattern`
requires an action keyword, so such a message does not match at all and
the command is never invoked for it. -/
theorem C5_counterexample :
    startsWith "/hgt".data ("/hgt 开始".data) = true ∧
    parseCommand "/hgt 开始" = none := by
  exact ⟨rfl, rfl⟩

/-- C5 (amended): every message that matches `command_pattern` carries one
of the recognized action keywords; messages with the `/hgt` prefix but no
recognized keyword fail to match and are left unhandled by this command
(the start-new-game default branch is reached only by matched messages
whose keyword condition fails, namely `问题` or `猜谜` with no usable
argument). -/
theorem C5_keyword_required (msg a : String) (rest : Option String)
    (h : parseCommand msg = some (a, rest)) : a ∈ actionKeywords := by
  unfold parseCommand at h
  exact parseCore_mem h

/-- C5 witness: a concrete matched message carries a recognized keyword. -/
theorem C5_witness :
    parseCommand "/hgt 退出" = some ("退出", none) ∧ "退出" ∈ actionKeywords := by
  exact ⟨rfl, C5_keyword_required "/hgt 退出" "退出" none rfl⟩

/-- C6 counterexample: the claim asserts every command with an empty
collaborator output surfaces a fallback no-answer message; the hint
handler embeds the empty content directly, and its reply does not contain
the fallback text `❌ LLM未返回回答` used by the question handler. -/
theorem C6_counterexample :
    (_handle_hint ⟨"Q", "A", 0, true, [], false⟩ "").ok = true ∧
    (_handle_hint ⟨"Q", "A", 0, true, [], false⟩ "").replies = ["💡 提示 (1/3): "] ∧
    ¬ ContainsSubstr "💡 提示 (1/3): " "❌ LLM未返回回答" := by
  refine ⟨by decide, by decide, fun hcs => ?_⟩
  have h2 := mem_of_containsSubstr hcs
    (show '❌' ∈ ("❌ LLM未返回回答").data by decide)
  exact absurd h2 (by decide)

/-- C6 (amended): every collaborator-invoking command still completes as a
successful flow when the collaborator returns the empty string, but only
the ask handler substitutes the fallback `❌ LLM未返回回答`; the hint and
clues handlers embed the empty content directly in their replies, a blank
guess classification falls into the unrelated branch, and start stores an
active game with empty content and no fallback in its reply. -/
theorem C6_empty_output :
    (∀ (s : Session) (q : String) (llm : Nat → String), s.game_active = true →
      pyStrip (llm 0) = "" →
      (_handle_question s q llm).ok = true ∧
      (_handle_question s q llm).replies =
        ["❓ 你问: " ++ q ++ "\n💡 回答: " ++ "❌ LLM未返回回答"]) ∧
    (∀ s : Session, s.game_active = true → s.hints_used < 3 →
      (_handle_hint s "").ok = true ∧
      (_handle_hint s "").replies =
        ["💡 提示 (" ++ toString (s.hints_used + 1) ++ "/3): "]) ∧
    (∀ (s : Session) (cl : List String), s.game_active = true →
      histContents s.guess_history = some cl →
      _handle_clues s "" = some ⟨s, ["📝 线索整理:\n"], true, "线索整理完成", 1⟩) ∧
    (∀ (s : Session) (g : String), s.game_active = true → s.game_over = false →
      (_handle_guess s g "").ok = true ∧
      (_handle_guess s g "").replies = ["❓ 你的回答与题目无关"]) ∧
    (∀ s : Session, ¬ (s.game_active = true ∧ s.game_over = false) →
      (_start_new_game s "" "").ok = true ∧
      (_start_new_game s "" "").session.game_active = true ∧
      (_start_new_game s "" "").replies =
        ["🤔 海龟汤题目:\n" ++
         "\n💡 提示次数: 0/3\n💡 使用 /hgt 问题 <问题> 提问，/hgt 提示 获取提示，/hgt 猜谜 <答案> 猜测汤底"]) := by
  refine ⟨?_, ?_, ?_, ?_, ?_⟩
  · intro s q llm hact hempty
    unfold _handle_question
    rw [if_neg (not_not_intro hact), if_pos hempty]
    exact ⟨rfl, rfl⟩
  · intro s hact hlt
    unfold _handle_hint
    rw [if_neg (not_not_intro hact), if_neg (by omega)]
    refine ⟨rfl, ?_⟩
    rw [show pyStrip "" = "" from rfl, String.append_empty]
  · intro s cl hact hm
    unfold _handle_clues
    rw [if_neg (not_not_intro hact), hm]
    rfl
  · intro s g hact hover
    unfold _handle_guess
    rw [if_neg (not_not_intro hact), if_neg (by simp [hover]),
        if_neg (by decide), if_neg (by decide)]
    exact ⟨rfl, rfl⟩
  · intro s hni
    have hcond : ¬ ((s.game_active = true) ∧ ¬ (s.game_over = true)) := by
      intro hx
      exact hni ⟨hx.1, by simpa using hx.2⟩
    unfold _start_new_game
    rw [if_neg hcond]
    exact ⟨rfl, rfl, rfl⟩

/-- C6 witness: the five empty-output behaviours at concrete sessions. -/
theorem C6_witness :
    (_handle_question ⟨"Q", "A", 0, true, [], false⟩ "why" (fun _ => "")).replies =
      ["❓ 你问: " ++ "why" ++ "\n💡 回答: " ++ "❌ LLM未返回回答"] ∧
    (_handle_hint ⟨"Q", "A", 1, true, [], false⟩ "").ok = true ∧
    _handle_clues ⟨"Q", "A", 0, true, [HistEntry.question "x"], false⟩ "" =
      some ⟨⟨"Q", "A", 0, true, [HistEntry.question "x"], false⟩,
            ["📝 线索整理:\n"], true, "线索整理完成", 1⟩ ∧
    (_handle_guess ⟨"Q", "A", 0, true, [], false⟩ "g" "").replies =
      ["❓ 你的回答与题目无关"] ∧
    (_start_new_game ⟨"", "", 0, false, [], false⟩ "" "").ok = true := by
  exact ⟨(C6_empty_output.1 ⟨"Q", "A", 0, true, [], false⟩ "why" (fun _ => "") rfl rfl).2,
         (C6_empty_output.2.1 ⟨"Q", "A", 1, true, [], false⟩ rfl (by decide)).1,
         C6_empty_output.2.2.1 ⟨"Q", "A", 0, true, [HistEntry.question "x"], false⟩ ["x"] rfl rfl,
         (C6_empty_output.2.2.2.1 ⟨"Q", "A", 0, true, [], false⟩ "g" rfl rfl).2,
         (C6_empty_output.2.2.2.2 ⟨"", "", 0, false, [], false⟩ (by decide)).1⟩

lemma call_response_200_some (d : JValue) :
    _call_llm_api (ApiOutcome.response 200 (some d)) =
      match extractContent d with
      | Except.ok s => s
      | Except.error _ => "" := rfl

lemma call_response_eq (st : Nat) (body : Option JValue) :
    _call_llm_api (ApiOutcome.response st body) =
      if st = 200 then
        match body with
        | none => ""
        | some data =>
          match extractContent data with
          | Except.ok s => s
          | Except.error _ => ""
      else "" := rfl

lemma jGet_obj (fields : List (String × JValue)) (k : String) (d : JValue) :
    jGet (JValue.obj fields) k d = Except.ok ((fields.lookup k).getD d) := rfl

/-- C7 (confirmed): `_call_llm_api` returns the empty string (and, being a
total function of the modelled outcome, propagates no exception) whenever
the HTTP call raises, the status is not 200, or the body is malformed
(non-JSON, missing `choices`, or missing message `content`); the call
uses the fixed 30-second timeout constant, and the model consumes exactly
one outcome, reflecting that no retry is made. -/
theorem C7_fail_open :
    _call_llm_api ApiOutcome.exn = "" ∧
    (∀ (st : Nat) (body : Option JValue), st ≠ 200 →
      _call_llm_api (ApiOutcome.response st body) = "") ∧
    _call_llm_api (ApiOutcome.response 200 none) = "" ∧
    (∀ d : JValue, extractContent d = Except.error () →
      _call_llm_api (ApiOutcome.response 200 (some d)) = "") ∧
    (∀ fields : List (String × JValue), fields.lookup "choices" = none →
      _call_llm_api (ApiOutcome.response 200 (some (JValue.obj fields))) = "") ∧
    (∀ mfields : List (String × JValue), mfields.lookup "content" = none →
      _call_llm_api (ApiOutcome.response 200 (some (JValue.obj
        [("choices", JValue.arr [JValue.obj [("message", JValue.obj mfields)]])]))) = "") ∧
    llm_timeout_seconds = 30 := by
  refine ⟨rfl, ?_, rfl, ?_, ?_, ?_, rfl⟩
  · intro st body hst
    rw [call_response_eq, if_neg hst]
  · intro d hd
    rw [call_response_200_some, hd]
  · intro fields hf
    have h1 : jGet (JValue.obj fields) "choices" (JValue.arr [JValue.obj []]) =
        Except.ok (JValue.arr [JValue.obj []]) := by
      rw [jGet_obj, hf]
      rfl
    have h2 : extractContent (JValue.obj fields) = Except.ok "" := by
      unfold extractContent
      rw [h1]
      rfl
    rw [call_response_200_some, h2]
  · intro mfields hm
    have h1 : jGet (JValue.obj mfields) "content" (JValue.str "") =
        Except.ok (JValue.str "") := by
      rw [jGet_obj, hm]
      rfl
    have hstep : extractContent (JValue.obj
        [("choices", JValue.arr [JValue.obj [("message", JValue.obj mfields)]])]) =
        (jGet (JValue.obj mfields) "content" (JValue.str "")).bind
          (fun content => contentOf content) := rfl
    rw [call_response_200_some, hstep, h1]
    rfl

/-- C7 witness: concrete failing outcomes all yield the empty string. -/
theorem C7_witness :
    _call_llm_api (ApiOutcome.response 500 none) = "" ∧
    _call_llm_api (ApiOutcome.response 200 (some JValue.null)) = "" ∧
    _call_llm_api (ApiOutcome.response 200 (some (JValue.obj []))) = "" ∧
    _call_llm_api (ApiOutcome.response 200 (some (JValue.obj
      [("choices", JValue.arr [JValue.obj [("message", JValue.obj [])]])]))) = "" := by
  exact ⟨C7_fail_open.2.1 500 none (by decide),
         C7_fail_open.2.2.2.1 JValue.null rfl,
         C7_fail_open.2.2.2.2.1 [] rfl,
         C7_fail_open.2.2.2.2.2.1 [] rfl⟩

/-- C8 (confirmed): starting a new game while a session is in progress
(`game_active = true`, `game_over = false`) returns exactly the rejection
result: the stored session is unchanged in every field, the reply is the
single rejection text, the command fails, and zero collaborator calls are
made. -/
theorem C8_start_guard (s : Session) (llmQ llmA : String)
    (hact : s.game_active = true) (hover : s.game_over = false) :
    _start_new_game s llmQ llmA =
      ⟨s, ["⚠️ 当前已经有题目在进行中，请先使用 /hgt 揭秘 或 /hgt 退出 再开始新题。"],
       false, "已有进行中的游戏", 0⟩ := by
  unfold _start_new_game
  rw [if_pos ⟨hact, by simp [hover]⟩]

/-- C8 witness: the guard at a concrete in-progress session. -/
theorem C8_witness :
    _start_new_game ⟨"Q", "A", 1, true, [], false⟩ "X" "Y" =
      ⟨⟨"Q", "A", 1, true, [], false⟩,
       ["⚠️ 当前已经有题目在进行中，请先使用 /hgt 揭秘 或 /hgt 退出 再开始新题。"],
       false, "已有进行中的游戏", 0⟩ := by
  exact C8_start_guard ⟨"Q", "A", 1, true, [], false⟩ "X" "Y" rfl rfl

/-- C9 (confirmed): the Exit command is dispatched to `_handle_exit` for
every session and prior state, and the stored session afterwards has
`game_active = false`, `game_over = false`, `hints_used = 0`, an empty
history, and empty `current_question` and `current_answer`. -/
theorem C9_exit_reset (s : Session) (rest : Option String) (llm : Nat → String) :
    execute s "退出" rest llm = some (_handle_exit s) ∧
    (_handle_exit s).session.game_active = false ∧
    (_handle_exit s).session.game_over = false ∧
    (_handle_exit s).session.hints_used = 0 ∧
    (_handle_exit s).session.guess_history = [] ∧
    (_handle_exit s).session.current_question = "" ∧
    (_handle_exit s).session.current_answer = "" := by
  exact ⟨rfl, rfl, rfl, rfl, rfl, rfl, rfl⟩

/-- C10 (confirmed): `/hgt 问题` and `/hgt 猜谜` with no trailing text
match the pattern with an absent `rest` group, and the dispatcher sends
any `问题` or `猜谜` action whose stripped argument is empty to the
default `_start_new_game` branch rather than to the ask or guess handler
and without a rejection of its own. -/
theorem C10_default_dispatch :
    parseCommand "/hgt 问题" = some ("问题", none) ∧
    parseCommand "/hgt 猜谜" = some ("猜谜", none) ∧
    ∀ (s : Session) (rest : Option String) (llm : Nat → String),
      restInput rest = "" →
      execute s "问题" rest llm = some (_start_new_game s (llm 0) (llm 1)) ∧
      execute s "猜谜" rest llm = some (_start_new_game s (llm 0) (llm 1)) := by
  refine ⟨rfl, rfl, ?_⟩
  intro s rest llm hrest
  constructor
  · unfold execute
    rw [if_neg (by simp [hrest]), if_neg (by decide), if_neg (by decide),
        if_neg (by decide), if_neg (by simp), if_neg (by decide),
        if_neg (by decide), if_neg (by decide)]
  · unfold execute
    rw [if_neg (by simp), if_neg (by decide), if_neg (by decide),
        if_neg (by decide), if_neg (by simp [hrest]), if_neg (by decide),
        if_neg (by decide), if_neg (by decide)]

/-- C10 witness: the dispatch at a concrete session with an absent
argument. -/
theorem C10_witness :
    execute freshSession "问题" none (fun _ => "") =
      some (_start_new_game freshSession "" "") := by
  exact (C10_default_dispatch.2.2 freshSession none (fun _ => "") rfl).1

end TurtleSoup
